import Mathlib

/-!
Verification of the `cassette_store` audio cassette codec.

This file gives a shallow embedding of the Python sources
(`cstore_base.py`, `cstore_casio_fx502p.py`, `cstore_sharp_pc1211.py`)
and proves properties of the embedded definitions.

Conventions of the embedding:
* machine bytes are `Nat` values below 256; bit operations use `&&&`,
  `|||`, `<<<`, `>>>` with explicit masks exactly where the source has them;
* Python generators threading mutable state become explicit state passing:
  the shared half-wave deque `hwbuffer` (maxlen `hwlen1`) is represented by
  the count `c` of half-waves consumed so far, so that the buffer content is
  the window `hws[c - min c hwlen1 .. c)` of the half-wave stream `hws` -
  this also models the buffer going stale when the stream is exhausted
  (a deque `extend` from an exhausted iterator appends nothing);
* a Python exception becomes an `Except`/error value; the distinct error
  kinds are listed in `DErr` below;
* durations of idle tones are carried in milliseconds (the source uses
  float seconds 4.0, 0.5 and 0.25, all exact).
-/

namespace CassetteStore

/-- `CSTORE_SOX_RATE` from `cstore_base.py`. -/
def soxRate : Nat := 48000

/-- Protocol configuration: base frequency and baud rate, as passed to
`CStoreBase.__init__`. -/
structure MCfg where
  basefreq : Nat
  baud : Nat
deriving DecidableEq, Repr

/-- `fphw = int(CSTORE_SOX_RATE / basefreq / 2)`: samples per half-wave of
the ONE (base-frequency) tone. -/
def MCfg.fphw (c : MCfg) : Nat := soxRate / c.basefreq / 2

/-- `len_0 = int(self.origfreq / self.baud / 2)`: full waves of the ZERO tone
per ZERO bit. -/
def MCfg.len0 (c : MCfg) : Nat := c.basefreq / c.baud / 2

/-- `len_1 = int(len_0 * 2)`: full waves of the ONE tone per ONE bit. -/
def MCfg.len1 (c : MCfg) : Nat := c.len0 * 2

/-- Repeat a block `n` times (Python `list * n`). -/
def repBlock (l : List Nat) (n : Nat) : List Nat :=
  (List.replicate n l).flatten

/-- `frames0 = ([120] * fphw * 2 + [-120 & 0xff] * fphw * 2) * len_0`:
the PCM samples of one ZERO bit (`-120 & 0xff = 136`). -/
def MCfg.frames0 (c : MCfg) : List Nat :=
  repBlock (List.replicate (c.fphw * 2) 120 ++ List.replicate (c.fphw * 2) 136) c.len0

/-- `frames1 = ([120] * fphw + [-120 & 0xff] * fphw) * len_1`:
the PCM samples of one ONE bit. -/
def MCfg.frames1 (c : MCfg) : List Nat :=
  repBlock (List.replicate c.fphw 120 ++ List.replicate c.fphw 136) c.len1

/-- `hwmidpoint = int(CSTORE_SOX_RATE / (basefreq * 1.5) + 0.5)`, computed
exactly: `48000 / (1.5 f) + 1/2 = (64000 + f) / (2 f)`, floored.  (For the
frequencies 2400 and 4000 used by the models the float computation of the
source is exact, so the floor of the rational value coincides with it.) -/
def MCfg.hwmid (c : MCfg) : Nat := (64000 + c.basefreq) / (2 * c.basefreq)

/-- `hwlen_0 = int(origfreq / baud)`: half-waves per ZERO bit. -/
def MCfg.hwlen0 (c : MCfg) : Nat := c.basefreq / c.baud

/-- `hwlen_1 = hwlen_0 * 2`: half-waves per ONE bit (also the `maxlen` of the
half-wave deque). -/
def MCfg.hwlen1 (c : MCfg) : Nat := c.hwlen0 * 2

/-- The FX-502P modem configuration (`basefreq=2400, baud=300`). -/
def fxCfg : MCfg := ⟨2400, 300⟩

/-- The PC-1211 modem configuration (`basefreq=4000, baud=500`). -/
def pcCfg : MCfg := ⟨4000, 500⟩

/-- The default bit pattern of `CStoreBase.__init__`, used by the FX-502P:
`'S01234567E--'`. -/
def fxPatternChars : List Char :=
  ['S', '0', '1', '2', '3', '4', '5', '6', '7', 'E', '-', '-']

/-- The PC-1211 bit pattern `'S4567----S0123-----'`. -/
def pcPatternChars : List Char :=
  ['S', '4', '5', '6', '7', '-', '-', '-', '-',
   'S', '0', '1', '2', '3', '-', '-', '-', '-', '-']

/-- Is a bit-pattern symbol one of the data-bit digits `'0'..'7'`
(the membership test `state in ['0',...,'7']` of the source)? -/
def isDigitSym (ch : Char) : Bool := decide ('0' ≤ ch) && decide (ch ≤ '7')

/-- Numeric value of a digit symbol (`int(state)`). -/
def digitVal (ch : Char) : Nat := ch.toNat - 48

/-- `CStoreBase._write_byte`: build the PCM frame sequence of one byte by
walking the bit pattern, counting one-bits for the parity symbols. -/
def writeByteFramesAux (c : MCfg) (b : Nat) : List Char → Nat → List Nat
  | [], _ => []
  | ch :: rest, numOnes =>
    if isDigitSym ch then
      if b &&& (1 <<< digitVal ch) ≠ 0 then
        c.frames1 ++ writeByteFramesAux c b rest (numOnes + 1)
      else
        c.frames0 ++ writeByteFramesAux c b rest numOnes
    else if ch = 'S' then c.frames0 ++ writeByteFramesAux c b rest numOnes
    else if ch = 'E' then
      (if numOnes % 2 = 0 then c.frames0 else c.frames1)
        ++ writeByteFramesAux c b rest numOnes
    else if ch = 'O' then
      (if numOnes % 2 = 0 then c.frames1 else c.frames0)
        ++ writeByteFramesAux c b rest numOnes
    else if ch = '-' then c.frames1 ++ writeByteFramesAux c b rest numOnes
    else writeByteFramesAux c b rest numOnes

/-- The PCM frames `CStoreBase._write_byte` emits for byte `b`. -/
def writeByteFrames (c : MCfg) (pat : List Char) (b : Nat) : List Nat :=
  writeByteFramesAux c b pat 0

/-- `CStoreBase._write_ones(duration)` for a duration of `q` quarter-seconds:
`numwaves = int(CSTORE_SOX_RATE / len(frames1) * duration)`.  For both model
configurations `48000 / len(frames1)` is exact (300 and 500), so the float
product with `q/4` equals the integer below. -/
def writeOnesQ (c : MCfg) (q : Nat) : List Nat :=
  repBlock c.frames1 (soxRate / c.frames1.length * q / 4)

/-- Combined `_read_sbc_generator` and `_read_hw_generator`: walk the PCM
samples carrying the last sign bit (`last_sign`, initially `0`) and the
run length `n` of samples since the last emitted half-wave; on a sign change
with `n > 2` emit a half-wave symbol (`true` = ZERO half-wave `'#'`,
`false` = ONE half-wave `'.'`, via `n ≤ hwmidpoint`). -/
def hwSteps (mid : Nat) : Nat → Nat → List Nat → List Bool
  | _, _, [] => []
  | lastSign, n, s :: rest =>
    let sign := s &&& 0x80
    if sign ≠ lastSign ∧ 2 < n + 1 then
      decide (mid < n + 1) :: hwSteps mid sign 0 rest
    else
      hwSteps mid sign (n + 1) rest

/-- The half-wave symbol stream of a PCM sample list. -/
def hwOf (mid : Nat) (samples : List Nat) : List Bool :=
  hwSteps mid 0 0 samples

/-- Error kinds of the decode pipeline.  `runtimeError` models the
`RuntimeError` that Python raises when a `StopIteration` escapes a generator
body (PEP 479), `stopIteration` a `StopIteration` reaching
`_read_byte_generator` directly, `hang` a loop iteration that consumes no
input and makes no progress (non-termination of the source). -/
inductive DErr where
  | indexError
  | runtimeError
  | stopIteration
  | bitError
  | parityError
  | hang
deriving DecidableEq, Repr

/-- The half-wave deque `hwbuffer` (`window`, `maxlen = hwlen1`) together
with the not yet consumed part of the half-wave stream (`future`). -/
structure HWView where
  window : List Bool
  future : List Bool
deriving DecidableEq, Repr

/-- `deque.append`: drop the leftmost entry once the deque is full. -/
def dequePush (hwlen1 : Nat) (w : List Bool) (x : Bool) : List Bool :=
  if hwlen1 ≤ w.length then w.tail ++ [x] else w ++ [x]

/-- `hwbuffer.extend(islice(self.hw, k))`: move up to `k` half-waves from
the stream into the deque; an exhausted stream yields fewer (possibly none),
leaving the deque content stale. -/
def extendK (hwlen1 : Nat) : HWView → Nat → HWView
  | v, 0 => v
  | v, k + 1 =>
    match v.future with
    | [] => v
    | x :: rest => extendK hwlen1 ⟨dequePush hwlen1 v.window x, rest⟩ k

/-- `hwbuffer[i]`; `none` models an `IndexError`. -/
def bufGet (v : HWView) (i : Nat) : Option Bool := v.window.get? i

mutual

/-- Inner loop of `_read_startbit_generator` (`for hw in self.hw:` scanning
for four consecutive ZERO half-waves at the front of the buffer), mutually
structured with the outer loop through the shared fuel.  Returns the view
after `yield 0`. -/
def findStartInner (cfg : MCfg) : Nat → HWView → Except DErr HWView
  | 0, _ => .error .hang
  | fuel + 1, v =>
    match v.future with
    | [] =>
      -- the `for` loop ends silently; control returns to the outer loop
      findStartOuter cfg fuel v
    | x :: rest =>
      let v : HWView := ⟨dequePush cfg.hwlen1 v.window x, rest⟩
      match bufGet v 0, bufGet v 1, bufGet v 2, bufGet v 3 with
      | some b0, some b1, some b2, some b3 =>
        if b0 ∧ b1 ∧ b2 ∧ b3 then
          .ok (extendK cfg.hwlen1 v cfg.hwlen0)
        else
          findStartInner cfg fuel v
      | _, _, _, _ => .error .indexError

/-- Outer loop of `_read_startbit_generator` (`while True:` waiting for two
consecutive ONE half-waves at the front of the buffer).  `next(self.hw)` on
an exhausted stream raises `StopIteration` inside the generator body, which
Python converts to a `RuntimeError` (PEP 479). -/
def findStartOuter (cfg : MCfg) : Nat → HWView → Except DErr HWView
  | 0, _ => .error .hang
  | fuel + 1, v =>
    match bufGet v 0, bufGet v 1 with
    | some b0, some b1 =>
      if b0 = false ∧ b1 = false then
        findStartInner cfg fuel v
      else
        match v.future with
        | [] => .error .runtimeError
        | x :: rest => findStartOuter cfg fuel ⟨dequePush cfg.hwlen1 v.window x, rest⟩
    | _, _ => .error .indexError

end

/-- `_read_bit_generator`: look at the middle of the buffer; a ZERO half-wave
at `hwlen_0/2` is a 0 bit, else a ONE half-wave at `hwlen_1/2` is a 1 bit;
anything else raises `CStoreException("could not determine bit ...")`. -/
def readBit (cfg : MCfg) (v : HWView) : Except DErr (Nat × HWView) :=
  match bufGet v (cfg.hwlen0 / 2) with
  | none => .error .indexError
  | some s0 =>
    if s0 then
      .ok (0, extendK cfg.hwlen1 v cfg.hwlen0)
    else
      match bufGet v (cfg.hwlen1 / 2) with
      | none => .error .indexError
      | some s1 =>
        if s1 = false then
          .ok (1, extendK cfg.hwlen1 v cfg.hwlen1)
        else
          .error .bitError

/-- One iteration of the symbol loop of `_read_byte_generator`, threading
`(byteval, num_one)` and the half-wave view. -/
def readSymHW (cfg : MCfg) (ch : Char) :
    Nat × Nat × HWView → Except DErr (Nat × Nat × HWView)
  | (byteval, numOne, v) =>
    if isDigitSym ch then
      match readBit cfg v with
      | .error e => .error e
      | .ok (b, v') =>
        if b ≠ 0 then .ok (byteval ||| (1 <<< digitVal ch), numOne + 1, v')
        else .ok (byteval, numOne, v')
    else if ch = 'S' then
      match findStartOuter cfg (2 * (v.window.length + v.future.length) + 8) v with
      | .error e => .error e
      | .ok v' => .ok (byteval, numOne, v')
    else if ch = 'E' then
      match readBit cfg v with
      | .error e => .error e
      | .ok (b, v') =>
        if numOne % 2 ≠ b then .error .parityError else .ok (byteval, numOne, v')
    else if ch = 'O' then
      match readBit cfg v with
      | .error e => .error e
      | .ok (b, v') =>
        if numOne % 2 = b then .error .parityError else .ok (byteval, numOne, v')
    else
      .ok (byteval, numOne, v)

/-- One full byte frame of `_read_byte_generator`: walk the bit pattern
(`'-'` falls into the final `pass` branch of `readSymHW`). -/
def readByteHW (cfg : MCfg) (pat : List Char) (v : HWView) :
    Except DErr (Nat × HWView) :=
  go pat (0, 0, v)
where
  go : List Char → Nat × Nat × HWView → Except DErr (Nat × HWView)
    | [], (byteval, _, v) => .ok (byteval, v)
    | ch :: rest, st =>
      match readSymHW cfg ch st with
      | .error e => .error e
      | .ok st' => go rest st'

/-- Decode the first byte of a half-wave stream: the first `next()` on the
start-bit generator pre-fills the buffer with `hwlen_1` half-waves before the
pattern loop runs. -/
def decodeFirstByte (cfg : MCfg) (pat : List Char) (hws : List Bool) :
    Except DErr (Nat × HWView) :=
  readByteHW cfg pat (extendK cfg.hwlen1 ⟨[], hws⟩ cfg.hwlen1)

/-!  Characterization of the half-wave stream of an encoded byte.

A ONE bit is `2*hwlen0` half-waves of `fphw` samples, a ZERO bit `hwlen0`
half-waves of `2*fphw` samples.  The classifier emits a half-wave only when
it sees the *next* sign change, so the final half-wave of each bit is
emitted while the first sample of the following bit is processed, and the
very last half-wave of the stream is never emitted.  The following
definitions give the resulting symbol stream directly; the `hwOf_*` theorems
below prove them equal to running the classifier on the PCM samples. -/

/-- The tone bit (`true` = ONE tone) that `_write_byte` emits for each
bit-pattern symbol, threading the `num_ones` counter. -/
def wireBitsAux (b : Nat) : List Char → Nat → List Bool
  | [], _ => []
  | ch :: rest, numOnes =>
    if isDigitSym ch then
      if b &&& (1 <<< digitVal ch) ≠ 0 then true :: wireBitsAux b rest (numOnes + 1)
      else false :: wireBitsAux b rest numOnes
    else if ch = 'S' then false :: wireBitsAux b rest numOnes
    else if ch = 'E' then
      (if numOnes % 2 = 0 then false else true) :: wireBitsAux b rest numOnes
    else if ch = 'O' then
      (if numOnes % 2 = 0 then true else false) :: wireBitsAux b rest numOnes
    else if ch = '-' then true :: wireBitsAux b rest numOnes
    else wireBitsAux b rest numOnes

/-- PCM frames of a tone-bit sequence. -/
def bitsFrames (F0 F1 : List Nat) : List Bool → List Nat
  | [] => []
  | bt :: rest => (if bt then F1 else F0) ++ bitsFrames F0 F1 rest

/-- Half-wave symbols of a tone-bit sequence when entered with a pending
half-wave of kind `e` (`true` = pending ZERO half-wave): the pending symbol
is emitted at the first sample of the block, followed by the block's own
body of `2*hwlen0 - 1` ONE symbols resp. `hwlen0 - 1` ZERO symbols; the
block's own final half-wave becomes the next pending one. -/
def runsAux (hwlen0 : Nat) : Bool → List Bool → List Bool
  | _, [] => []
  | e, bt :: rest =>
    e :: (List.replicate (if bt then 2 * hwlen0 - 1 else hwlen0 - 1) (!bt)
          ++ runsAux hwlen0 (!bt) rest)

/-- The pending half-wave kind after a tone-bit sequence. -/
def exitRun : Bool → List Bool → Bool
  | e, [] => e
  | _, bt :: rest => exitRun (!bt) rest

/-- The half-wave stream of a lead-in of two ONE bits followed by one framed
byte: `hwlen1 - 1` ONE half-waves from the first lead-in bit (its last one
is pending), then the runs of the second lead-in bit and the byte's tone
bits. -/
def hwDirect (cfg : MCfg) (pat : List Char) (b : Nat) : List Bool :=
  List.replicate (cfg.hwlen1 - 1) false
    ++ runsAux cfg.hwlen0 false (true :: wireBitsAux b pat 0)

/-- `_write_byte` emits exactly the frames of its wire-bit sequence. -/
theorem writeByteFramesAux_eq (c : MCfg) (b : Nat) (pat : List Char) :
    ∀ n : Nat, writeByteFramesAux c b pat n
      = bitsFrames c.frames0 c.frames1 (wireBitsAux b pat n) := by
  induction pat with
  | nil => intro n; rfl
  | cons ch rest ih =>
    intro n
    simp only [writeByteFramesAux, wireBitsAux]
    split_ifs <;> simp [bitsFrames, ih]

/-- Generic splitting of the half-wave classifier over the frame blocks of a
tone-bit sequence, given the behaviour of the classifier on a single ONE
block (`h1A`, `h1B`) and a single ZERO block (`h0A`, `h0B`) entered with a
pending run of `nA` (after a ONE block) resp. `nB` (after a ZERO block)
samples. -/
theorem runs_split (mid hwlen0 nA nB : Nat) (F0 F1 : List Nat)
    (h1A : ∀ r, hwSteps mid 128 nA (F1 ++ r)
      = false :: (List.replicate (2 * hwlen0 - 1) false ++ hwSteps mid 128 nA r))
    (h1B : ∀ r, hwSteps mid 128 nB (F1 ++ r)
      = true :: (List.replicate (2 * hwlen0 - 1) false ++ hwSteps mid 128 nA r))
    (h0A : ∀ r, hwSteps mid 128 nA (F0 ++ r)
      = false :: (List.replicate (hwlen0 - 1) true ++ hwSteps mid 128 nB r))
    (h0B : ∀ r, hwSteps mid 128 nB (F0 ++ r)
      = true :: (List.replicate (hwlen0 - 1) true ++ hwSteps mid 128 nB r)) :
    ∀ (bits : List Bool) (e : Bool) (r : List Nat),
      hwSteps mid 128 (if e then nB else nA) (bitsFrames F0 F1 bits ++ r)
        = runsAux hwlen0 e bits
          ++ hwSteps mid 128 (if exitRun e bits then nB else nA) r := by
  intro bits
  induction bits with
  | nil => intro e r; simp [bitsFrames, runsAux, exitRun]
  | cons bt rest ih =>
    intro e r
    cases bt
    · cases e
      · simpa [bitsFrames, runsAux, exitRun, List.append_assoc, h0A] using ih true r
      · simpa [bitsFrames, runsAux, exitRun, List.append_assoc, h0B] using ih true r
    · cases e
      · simpa [bitsFrames, runsAux, exitRun, List.append_assoc, h1A] using ih false r
      · simpa [bitsFrames, runsAux, exitRun, List.append_assoc, h1B] using ih false r

/-! Concrete classifier behaviour on the four FX-502P / PC-1211 blocks,
verified by kernel computation over the 160 resp. 96 samples of a block.
After a ONE block the pending run is `fphw - 1` samples (9 resp. 5), after a
ZERO block `2 * fphw - 1` (19 resp. 11). -/

set_option maxRecDepth 100000 in
theorem fxF1A (r : List Nat) : hwSteps 13 128 9 (fxCfg.frames1 ++ r)
    = false :: (List.replicate 15 false ++ hwSteps 13 128 9 r) := by rfl

set_option maxRecDepth 100000 in
theorem fxF1B (r : List Nat) : hwSteps 13 128 19 (fxCfg.frames1 ++ r)
    = true :: (List.replicate 15 false ++ hwSteps 13 128 9 r) := by rfl

set_option maxRecDepth 100000 in
theorem fxF0A (r : List Nat) : hwSteps 13 128 9 (fxCfg.frames0 ++ r)
    = false :: (List.replicate 7 true ++ hwSteps 13 128 19 r) := by rfl

set_option maxRecDepth 100000 in
theorem fxF0B (r : List Nat) : hwSteps 13 128 19 (fxCfg.frames0 ++ r)
    = true :: (List.replicate 7 true ++ hwSteps 13 128 19 r) := by rfl

set_option maxRecDepth 100000 in
theorem fxInitLemma (r : List Nat) : hwSteps 13 0 0 (fxCfg.frames1 ++ r)
    = List.replicate 15 false ++ hwSteps 13 128 9 r := by rfl

set_option maxRecDepth 100000 in
theorem pcF1A (r : List Nat) : hwSteps 8 128 5 (pcCfg.frames1 ++ r)
    = false :: (List.replicate 15 false ++ hwSteps 8 128 5 r) := by rfl

set_option maxRecDepth 100000 in
theorem pcF1B (r : List Nat) : hwSteps 8 128 11 (pcCfg.frames1 ++ r)
    = true :: (List.replicate 15 false ++ hwSteps 8 128 5 r) := by rfl

set_option maxRecDepth 100000 in
theorem pcF0A (r : List Nat) : hwSteps 8 128 5 (pcCfg.frames0 ++ r)
    = false :: (List.replicate 7 true ++ hwSteps 8 128 11 r) := by rfl

set_option maxRecDepth 100000 in
theorem pcF0B (r : List Nat) : hwSteps 8 128 11 (pcCfg.frames0 ++ r)
    = true :: (List.replicate 7 true ++ hwSteps 8 128 11 r) := by rfl

set_option maxRecDepth 100000 in
theorem pcInitLemma (r : List Nat) : hwSteps 8 0 0 (pcCfg.frames1 ++ r)
    = List.replicate 15 false ++ hwSteps 8 128 5 r := by rfl

/-- Classifying the PCM stream of a two-ONE-bit lead-in followed by one
framed byte (FX-502P) gives exactly the direct run description. -/
theorem hwOf_fx (b : Nat) :
    hwOf fxCfg.hwmid (repBlock fxCfg.frames1 2 ++ writeByteFrames fxCfg fxPatternChars b)
      = hwDirect fxCfg fxPatternChars b := by
  have hsplit := runs_split 13 8 9 19 fxCfg.frames0 fxCfg.frames1
    fxF1A fxF1B fxF0A fxF0B
  have hmid : fxCfg.hwmid = 13 := by rfl
  have h2 : repBlock fxCfg.frames1 2 = fxCfg.frames1 ++ fxCfg.frames1 := by
    simp [repBlock]
  rw [hwOf, hmid, writeByteFrames, writeByteFramesAux_eq, h2, List.append_assoc,
    fxInitLemma]
  have hb1 : fxCfg.frames1 ++ bitsFrames fxCfg.frames0 fxCfg.frames1 (wireBitsAux b fxPatternChars 0)
      = bitsFrames fxCfg.frames0 fxCfg.frames1 (true :: wireBitsAux b fxPatternChars 0) ++ [] := by
    simp [bitsFrames]
  have h3 : hwSteps 13 128 9
        (bitsFrames fxCfg.frames0 fxCfg.frames1 (true :: wireBitsAux b fxPatternChars 0) ++ [])
      = runsAux fxCfg.hwlen0 false (true :: wireBitsAux b fxPatternChars 0) ++ [] :=
    hsplit (true :: wireBitsAux b fxPatternChars 0) false []
  rw [hb1, h3, List.append_nil]
  rfl

/-- Classifying the PCM stream of a two-ONE-bit lead-in followed by one
framed byte (PC-1211) gives exactly the direct run description. -/
theorem hwOf_pc (b : Nat) :
    hwOf pcCfg.hwmid (repBlock pcCfg.frames1 2 ++ writeByteFrames pcCfg pcPatternChars b)
      = hwDirect pcCfg pcPatternChars b := by
  have hsplit := runs_split 8 8 5 11 pcCfg.frames0 pcCfg.frames1
    pcF1A pcF1B pcF0A pcF0B
  have hmid : pcCfg.hwmid = 8 := by rfl
  have h2 : repBlock pcCfg.frames1 2 = pcCfg.frames1 ++ pcCfg.frames1 := by
    simp [repBlock]
  rw [hwOf, hmid, writeByteFrames, writeByteFramesAux_eq, h2, List.append_assoc,
    pcInitLemma]
  have hb1 : pcCfg.frames1 ++ bitsFrames pcCfg.frames0 pcCfg.frames1 (wireBitsAux b pcPatternChars 0)
      = bitsFrames pcCfg.frames0 pcCfg.frames1 (true :: wireBitsAux b pcPatternChars 0) ++ [] := by
    simp [bitsFrames]
  have h3 : hwSteps 8 128 5
        (bitsFrames pcCfg.frames0 pcCfg.frames1 (true :: wireBitsAux b pcPatternChars 0) ++ [])
      = runsAux pcCfg.hwlen0 false (true :: wireBitsAux b pcPatternChars 0) ++ [] :=
    hsplit (true :: wireBitsAux b pcPatternChars 0) false []
  rw [hb1, h3, List.append_nil]
  rfl

/-- Does decoding the direct half-wave stream of byte `b` yield `b` again? -/
def roundTripOK (cfg : MCfg) (pat : List Char) (b : Nat) : Bool :=
  match decodeFirstByte cfg pat (hwDirect cfg pat b) with
  | .ok (b', _) => b' == b
  | .error _ => false

/-- Turn a successful `roundTripOK` check into the decoded-byte equation. -/
theorem roundTrip_ok_elim {cfg : MCfg} {pat : List Char} {b : Nat}
    (h : roundTripOK cfg pat b = true) :
    ∃ v, decodeFirstByte cfg pat (hwDirect cfg pat b) = .ok (b, v) := by
  unfold roundTripOK at h
  cases hd : decodeFirstByte cfg pat (hwDirect cfg pat b) with
  | error e => rw [hd] at h; cases h
  | ok p =>
    obtain ⟨b', v⟩ := p
    rw [hd] at h
    simp only [beq_iff_eq] at h
    subst h
    exact ⟨v, rfl⟩

/-- A verified 64-entry block check gives the property on its interval. -/
theorem chunk_all {f : Nat → Bool} {lo n : Nat}
    (h : (List.range n).all (fun i => f (lo + i)) = true) :
    ∀ b, lo ≤ b → b < lo + n → f b = true := by
  intro b h1 h2
  have h3 := List.all_eq_true.mp h (b - lo) (List.mem_range.mpr (by omega))
  have h4 : lo + (b - lo) = b := by omega
  simpa [h4] using h3

set_option maxRecDepth 2000000 in
set_option maxHeartbeats 8000000 in
theorem fxChunk0 :
    (List.range 64).all (fun i => roundTripOK fxCfg fxPatternChars (0 + i)) = true := by
  decide

set_option maxRecDepth 2000000 in
set_option maxHeartbeats 8000000 in
theorem fxChunk1 :
    (List.range 64).all (fun i => roundTripOK fxCfg fxPatternChars (64 + i)) = true := by
  decide

set_option maxRecDepth 2000000 in
set_option maxHeartbeats 8000000 in
theorem fxChunk2 :
    (List.range 64).all (fun i => roundTripOK fxCfg fxPatternChars (128 + i)) = true := by
  decide

set_option maxRecDepth 2000000 in
set_option maxHeartbeats 8000000 in
theorem fxChunk3 :
    (List.range 64).all (fun i => roundTripOK fxCfg fxPatternChars (192 + i)) = true := by
  decide

set_option maxRecDepth 2000000 in
set_option maxHeartbeats 8000000 in
theorem pcChunk0 :
    (List.range 64).all (fun i => roundTripOK pcCfg pcPatternChars (0 + i)) = true := by
  decide

set_option maxRecDepth 2000000 in
set_option maxHeartbeats 8000000 in
theorem pcChunk1 :
    (List.range 64).all (fun i => roundTripOK pcCfg pcPatternChars (64 + i)) = true := by
  decide

set_option maxRecDepth 2000000 in
set_option maxHeartbeats 8000000 in
theorem pcChunk2 :
    (List.range 64).all (fun i => roundTripOK pcCfg pcPatternChars (128 + i)) = true := by
  decide

set_option maxRecDepth 2000000 in
set_option maxHeartbeats 8000000 in
theorem pcChunk3 :
    (List.range 64).all (fun i => roundTripOK pcCfg pcPatternChars (192 + i)) = true := by
  decide

/-- Every byte round-trips through the FX-502P modem embedding. -/
theorem fx_roundTripAll : ∀ b < 256, roundTripOK fxCfg fxPatternChars b = true := by
  intro b hb
  rcases Nat.lt_or_ge b 64 with h | h
  · exact chunk_all fxChunk0 b (by omega) (by omega)
  rcases Nat.lt_or_ge b 128 with h2 | h2
  · exact chunk_all fxChunk1 b (by omega) (by omega)
  rcases Nat.lt_or_ge b 192 with h3 | h3
  · exact chunk_all fxChunk2 b (by omega) (by omega)
  · exact chunk_all fxChunk3 b (by omega) (by omega)

/-- Every byte round-trips through the PC-1211 modem embedding. -/
theorem pc_roundTripAll : ∀ b < 256, roundTripOK pcCfg pcPatternChars b = true := by
  intro b hb
  rcases Nat.lt_or_ge b 64 with h | h
  · exact chunk_all pcChunk0 b (by omega) (by omega)
  rcases Nat.lt_or_ge b 128 with h2 | h2
  · exact chunk_all pcChunk1 b (by omega) (by omega)
  rcases Nat.lt_or_ge b 192 with h3 | h3
  · exact chunk_all pcChunk2 b (by omega) (by omega)
  · exact chunk_all pcChunk3 b (by omega) (by omega)

/-- C1: for both model bit patterns (`'S01234567E--'` for the FX-502P and
`'S4567----S0123-----'` for the PC-1211) and every byte `b < 256`, decoding
the PCM frame stream produced by `_write_byte b` preceded by a lead-in of
ONE bits - through the sign-change / half-wave classifier with the midpoint
and half-wave counts derived from the base frequency, the start-bit search
and the bit and byte framers - yields exactly `b` with no error raised. -/
theorem c1_encode_decode_roundtrip (b : Nat) (hb : b < 256) :
    (∃ v, decodeFirstByte fxCfg fxPatternChars
        (hwOf fxCfg.hwmid (repBlock fxCfg.frames1 2 ++ writeByteFrames fxCfg fxPatternChars b))
      = .ok (b, v))
    ∧ (∃ v, decodeFirstByte pcCfg pcPatternChars
        (hwOf pcCfg.hwmid (repBlock pcCfg.frames1 2 ++ writeByteFrames pcCfg pcPatternChars b))
      = .ok (b, v)) := by
  constructor
  · rw [hwOf_fx]
    exact roundTrip_ok_elim (fx_roundTripAll b hb)
  · rw [hwOf_pc]
    exact roundTrip_ok_elim (pc_roundTripAll b hb)

/-- Witness for C1 at the concrete byte `0xA5`. -/
theorem c1_encode_decode_roundtrip_witness :
    (∃ v, decodeFirstByte fxCfg fxPatternChars
        (hwOf fxCfg.hwmid (repBlock fxCfg.frames1 2 ++ writeByteFrames fxCfg fxPatternChars 0xA5))
      = .ok (0xA5, v))
    ∧ (∃ v, decodeFirstByte pcCfg pcPatternChars
        (hwOf pcCfg.hwmid (repBlock pcCfg.frames1 2 ++ writeByteFrames pcCfg pcPatternChars 0xA5))
      = .ok (0xA5, v)) :=
  c1_encode_decode_roundtrip 0xA5 (by norm_num)

/-! ### Abstract byte framer (`_read_byte_generator` over explicit bit streams) -/

/-- State of `_read_byte_generator` with the start-bit generator and the bit
generator abstracted as explicit sequences. -/
structure RBState where
  byteval : Nat
  numOne : Nat
  startbits : List Nat
  bits : List Nat
deriving DecidableEq, Repr

/-- One symbol step of `_read_byte_generator`: data-bit and parity symbols
call `next(self.bits)`, `'S'` calls `next(self.startbit)`, and `'-'` falls
through to the `pass` branch.  An exhausted sequence raises
`StopIteration`. -/
def readSym (ch : Char) (st : RBState) : Except DErr RBState :=
  if isDigitSym ch then
    match st.bits with
    | [] => .error .stopIteration
    | b :: rest =>
      if b ≠ 0 then .ok ⟨st.byteval ||| (1 <<< digitVal ch), st.numOne + 1, st.startbits, rest⟩
      else .ok ⟨st.byteval, st.numOne, st.startbits, rest⟩
  else if ch = 'S' then
    match st.startbits with
    | [] => .error .stopIteration
    | _ :: rest => .ok ⟨st.byteval, st.numOne, rest, st.bits⟩
  else if ch = 'E' then
    match st.bits with
    | [] => .error .stopIteration
    | b :: rest =>
      if st.numOne % 2 ≠ b then .error .parityError
      else .ok ⟨st.byteval, st.numOne, st.startbits, rest⟩
  else if ch = 'O' then
    match st.bits with
    | [] => .error .stopIteration
    | b :: rest =>
      if st.numOne % 2 = b then .error .parityError
      else .ok ⟨st.byteval, st.numOne, st.startbits, rest⟩
  else
    .ok st

/-- One byte frame of `_read_byte_generator` over the abstract streams. -/
def readByteAbs : List Char → RBState → Except DErr RBState
  | [], st => .ok st
  | ch :: rest, st =>
    match readSym ch st with
    | .error e => .error e
    | .ok st' => readByteAbs rest st'

/-- C4 counterexample: decoding one FX-502P frame from a bit stream of
exactly 9 bits (8 data + 1 parity) succeeds and leaves the two sentinel
values `7, 7` untouched, so the two `'-'` symbols of the pattern consumed no
bit - the claim that each stop symbol reads one bit would require the
sentinels to be consumed. -/
theorem c4_stop_symbol_counterexample :
    readByteAbs fxPatternChars ⟨0, 0, [0], [1, 0, 0, 0, 0, 0, 0, 0, 1, 7, 7]⟩
      = .ok ⟨1, 1, [], [7, 7]⟩
    ∧ readByteAbs fxPatternChars ⟨0, 0, [0], [1, 0, 0, 0, 0, 0, 0, 0, 1, 7, 7]⟩
      ≠ .ok ⟨1, 1, [], []⟩ := by
  constructor
  · rfl
  · intro h
    simp only [show readByteAbs fxPatternChars ⟨0, 0, [0], [1, 0, 0, 0, 0, 0, 0, 0, 1, 7, 7]⟩
        = .ok ⟨1, 1, [], [7, 7]⟩ from rfl] at h
    cases h

/-- C4 (amended): when the byte framer decodes a byte, a stop symbol `'-'`
in the bit pattern reads no bit at all - the decoder state, including the
remaining bit stream, is unchanged. -/
theorem c4_stop_symbol_reads_nothing (st : RBState) : readSym '-' st = .ok st := rfl

/-! ### C2: the alternative `(databits, parity, stopbits)` configuration -/

/-- The parameters of `CStoreBase.__init__` as defined in `cstore_base.py`
(besides `self`). -/
def cstoreBaseInitParams : List String :=
  ["fname", "mode", "gain", "sinc", "basefreq", "baud", "bitpattern", "debug"]

/-- The keyword arguments `CStoreCasioFX502P.__init__` passes to
`super().__init__` (besides the positional `fname`). -/
def fx502pSuperKwargs : List String :=
  ["mode", "gain", "sinc", "basefreq", "baud", "databits", "parity", "stopbits", "debug"]

/-- A Python call binds only if every keyword argument names a parameter;
otherwise it raises `TypeError: unexpected keyword argument`. -/
def kwargsBind (params kwargs : List String) : Bool :=
  kwargs.all (fun k => params.contains k)

/-- The parity configurations `CSTORE_PARITY_EVEN / _ODD / _NONE`. -/
inductive ParityCfg where
  | even
  | odd
  | off
deriving DecidableEq, Repr

/-- Modelled from the spec: the synthesis of a `bit_pattern` from the
alternative configuration `(databits, parity, stopbits)` -
`"S" + "0".."(databits-1)" + {"E"|"O"|""} + "-"*stopbits`.  This code is
required by the call in `CStoreCasioFX502P.__init__` but absent from
`CStoreBase.__init__` in the sources. -/
def synthBitpattern (databits : Nat) (par : ParityCfg) (stopbits : Nat) : List Char :=
  'S' :: ((List.range databits).map (fun d => Char.ofNat (48 + d))
    ++ (match par with | .even => ['E'] | .odd => ['O'] | .off => [])
    ++ List.replicate stopbits '-')

/-- C2: `CStoreCasioFX502P.__init__` passes `databits=8, parity=even,
stopbits=2`, but `CStoreBase.__init__` accepts no such parameters, so the
construction raises `TypeError` instead of succeeding; the spec-intended
synthesis of those values is exactly `'S01234567E--'`. -/
theorem c2_alt_config_not_bound :
    kwargsBind cstoreBaseInitParams fx502pSuperKwargs = false
    ∧ fx502pSuperKwargs.filter (fun k => !cstoreBaseInitParams.contains k)
        = ["databits", "parity", "stopbits"]
    ∧ synthBitpattern 8 ParityCfg.even 2 = fxPatternChars := by
  refine ⟨by rfl, by rfl, by rfl⟩

/-! ### C5: the FX-502P write path -/

/-- Modelled from the spec: `CStoreBase._write_bytes` - called by
`CStoreCasioFX502P.write` and by `cstore_cmd`, but absent from the sources -
frames each payload byte in order via `_write_byte`. -/
def writeBytesM (c : MCfg) (pat : List Char) : List Nat → List Nat
  | [] => []
  | b :: rest => writeByteFrames c pat b ++ writeBytesM c pat rest

/-- `CStoreCasioFX502P.write`: 4-second lead-in (`_write_ones(4.0)`), the
payload, then `bytes([0xff] * 128)`. -/
def fxWrite (data : List Nat) : List Nat :=
  writeOnesQ fxCfg 16 ++ writeBytesM fxCfg fxPatternChars data
    ++ writeBytesM fxCfg fxPatternChars (List.replicate 128 0xff)

theorem repBlock_cons (l : List Nat) (n : Nat) :
    repBlock l (n + 1) = l ++ repBlock l n := by
  simp [repBlock, List.replicate_succ]

theorem repBlock_length (l : List Nat) (n : Nat) :
    (repBlock l n).length = n * l.length := by
  induction n with
  | zero => simp [repBlock]
  | succ m ih => rw [repBlock_cons]; simp [ih, Nat.succ_mul, Nat.add_comm]

theorem writeBytesM_replicate (c : MCfg) (pat : List Char) (b n : Nat) :
    writeBytesM c pat (List.replicate n b) = repBlock (writeByteFrames c pat b) n := by
  induction n with
  | zero => simp [writeBytesM, repBlock]
  | succ m ih => rw [List.replicate_succ, writeBytesM, ih, repBlock_cons]

set_option maxRecDepth 10000 in
/-- C5: for every payload, the FX-502P write emits first a 4-second lead-in
tone of ONE bits (192000 PCM samples at 48 kHz), then the payload bytes
framed per the bit pattern, then exactly 128 repetitions of the framed byte
`0xFF`, completing without error (`fxWrite` is a total function). -/
theorem c5_fx_write_layout (data : List Nat) :
    fxWrite data
      = writeOnesQ fxCfg 16 ++ writeBytesM fxCfg fxPatternChars data
        ++ repBlock (writeByteFrames fxCfg fxPatternChars 0xff) 128
    ∧ (writeOnesQ fxCfg 16).length = 4 * soxRate := by
  constructor
  · rw [fxWrite, writeBytesM_replicate]
  · rw [writeOnesQ, repBlock_length]
    rfl


/-! ### PC-1211 write path (`cstore_sharp_pc1211.py`) -/

/-- An item on the byte-level wire of the PC-1211 writer: a framed data byte
(`CStoreBase._write_byte`) or an idle ONE tone of the given duration in
milliseconds (`CStoreBase._write_ones`). -/
inductive WireItem where
  | byte (b : Nat)
  | tone (ms : Nat)
deriving DecidableEq, Repr

/-- The writer state: running checksum, bytes since the last checksum reset,
and the wire output so far. -/
structure PCWState where
  chksum : Nat
  chkcount : Nat
  out : List WireItem
deriving DecidableEq, Repr

/-- The checksum update of `CStoreSharpPC1211._write_byte`: add the high
nibble `(b & 0xf0) >> 4`; if the sum exceeds `0xFF` add 1; then add the low
nibble `b & 0x0f` and mask to 8 bits.  (The source masks only after the
low-nibble add; the final `& 0xff` makes the result identical to the read
path, which masks immediately after the carry.) -/
def chkStep (s b : Nat) : Nat :=
  let s1 := s + ((b &&& 0xf0) >>> 4)
  let s2 := if 0xff < s1 then s1 + 1 else s1
  (s2 + (b &&& 0x0f)) &&& 0xff

/-- `CStoreSharpPC1211._write_byte(byteval, is_checksum)`: frame the byte,
and unless it is itself a checksum byte, update the running checksum and
count, emit the checksum after every 8 counted bytes (via the base class,
so it is not itself counted), and at count 80 reset the checksum state and
write a 4-second ONE tone. -/
def pcWriteByte (st : PCWState) (b : Nat) (is_checksum : Bool) : PCWState :=
  let out1 := st.out ++ [WireItem.byte b]
  if is_checksum then ⟨st.chksum, st.chkcount, out1⟩ else
  let s := chkStep st.chksum b
  let cnt := st.chkcount + 1
  if cnt % 8 = 0 then
    if cnt = 80 then ⟨0, 0, out1 ++ [WireItem.byte s, WireItem.tone 4000]⟩
    else ⟨s, cnt, out1 ++ [WireItem.byte s]⟩
  else ⟨s, cnt, out1⟩

/-- `CStoreSharpPC1211._write_filename`: write the ident byte (`0x80`),
reset the checksum state, write the 8 filename-record bytes, reset again,
and write a 0.25-second ONE tone. -/
def pcWriteFilename (st : PCWState) (fname8 : List Nat) : PCWState :=
  let st1 := pcWriteByte st 0x80 false
  let st2 : PCWState := ⟨0, 0, st1.out⟩
  let st3 := fname8.foldl (fun s b => pcWriteByte s b false) st2
  ⟨0, 0, st3.out ++ [WireItem.tone 250]⟩

/-- The wire output of writing a payload byte-by-byte from a freshly reset
checksum state (`write` calls `_write_reset_chksum` first). -/
def pcChecksumWire (payload : List Nat) : List WireItem :=
  (payload.foldl (fun st b => pcWriteByte st b false) ⟨0, 0, []⟩).out

/-- C3 counterexample: the checksum byte emitted after a payload of eight
`0x11` bytes is not `0x22`, and after eight `0xFF` bytes it is not `0x1E`. -/
theorem c3_checksum_values_counterexample :
    (pcChecksumWire (List.replicate 8 0x11)).getLast? ≠ some (WireItem.byte 0x22)
    ∧ (pcChecksumWire (List.replicate 8 0xff)).getLast? ≠ some (WireItem.byte 0x1e) := by
  constructor <;> decide

/-- C3 (amended): the PC-1211 running checksum - adding the high nibble with
carry into bit 8 and then the low nibble masked to 8 bits - emits checksum
byte `0x10` after a payload of exactly 8 bytes `0x11`, and `0xF0` after 8
bytes `0xFF`. -/
theorem c3_checksum_values :
    (pcChecksumWire (List.replicate 8 0x11)).getLast? = some (WireItem.byte 0x10)
    ∧ (pcChecksumWire (List.replicate 8 0xff)).getLast? = some (WireItem.byte 0xf0)
    ∧ List.foldl chkStep 0 (List.replicate 8 0x11) = 0x10
    ∧ List.foldl chkStep 0 (List.replicate 8 0xff) = 0xf0 := by
  refine ⟨by decide, by decide, by decide, by decide⟩

/-- C7: on the PC-1211 write path, (i) a byte written while the count is not
about to reach a multiple of 8 is emitted alone and counted; (ii) after
every 8 counted payload bytes one checksum byte equal to the running
nibble-sum follows on the wire; (iii) at the 80th counted byte the checksum
state is reset to zero and a 4-second idle ONE tone is additionally written;
(iv) `_write_filename`, entered with a fresh byte count as `write` always
does, writes the ident byte `0x80`, resets the checksum
immediately after it, writes the 8 filename bytes followed by their checksum
(the nibble-sum of the filename bytes alone, showing the reset), and leaves
the checksum state reset to zero again. -/
theorem c7_pc_write_checksum_protocol :
    (∀ (st : PCWState) (b : Nat), (st.chkcount + 1) % 8 ≠ 0 →
      pcWriteByte st b false
        = ⟨chkStep st.chksum b, st.chkcount + 1, st.out ++ [WireItem.byte b]⟩)
    ∧ (∀ (st : PCWState) (b : Nat), (st.chkcount + 1) % 8 = 0 → st.chkcount + 1 ≠ 80 →
      pcWriteByte st b false
        = ⟨chkStep st.chksum b, st.chkcount + 1,
            st.out ++ [WireItem.byte b, WireItem.byte (chkStep st.chksum b)]⟩)
    ∧ (∀ (st : PCWState) (b : Nat), st.chkcount = 79 →
      pcWriteByte st b false
        = ⟨0, 0, st.out ++ [WireItem.byte b, WireItem.byte (chkStep st.chksum b),
            WireItem.tone 4000]⟩)
    ∧ (∀ (st : PCWState) (f1 f2 f3 f4 f5 f6 f7 f8 : Nat), st.chkcount = 0 →
      pcWriteFilename st [f1, f2, f3, f4, f5, f6, f7, f8]
        = ⟨0, 0, st.out ++ [WireItem.byte 0x80]
            ++ [f1, f2, f3, f4, f5, f6, f7, f8].map WireItem.byte
            ++ [WireItem.byte (List.foldl chkStep 0 [f1, f2, f3, f4, f5, f6, f7, f8]),
                WireItem.tone 250]⟩) := by
  refine ⟨?_, ?_, ?_, ?_⟩
  · intro st b h
    simp [pcWriteByte, h]
  · intro st b h1 h2
    simp [pcWriteByte, h1, h2]
  · intro st b h
    simp [pcWriteByte, h]
  · intro st f1 f2 f3 f4 f5 f6 f7 f8 h
    simp [pcWriteFilename, pcWriteByte, List.foldl, h]

/-- Witness for C7 at concrete states and bytes. -/
theorem c7_pc_write_checksum_protocol_witness :
    pcWriteByte ⟨0, 0, []⟩ 0x11 false = ⟨chkStep 0 0x11, 1, [WireItem.byte 0x11]⟩
    ∧ pcWriteByte ⟨3, 7, []⟩ 0x11 false
        = ⟨chkStep 3 0x11, 8, [WireItem.byte 0x11, WireItem.byte (chkStep 3 0x11)]⟩
    ∧ pcWriteByte ⟨3, 79, []⟩ 0x11 false
        = ⟨0, 0, [WireItem.byte 0x11, WireItem.byte (chkStep 3 0x11), WireItem.tone 4000]⟩
    ∧ pcWriteFilename ⟨5, 0, []⟩ [1, 2, 3, 4, 5, 6, 7, 8]
        = ⟨0, 0, [WireItem.byte 0x80] ++ [1, 2, 3, 4, 5, 6, 7, 8].map WireItem.byte
            ++ [WireItem.byte (List.foldl chkStep 0 [1, 2, 3, 4, 5, 6, 7, 8]),
                WireItem.tone 250]⟩ :=
  ⟨c7_pc_write_checksum_protocol.1 ⟨0, 0, []⟩ 0x11 (by decide),
   c7_pc_write_checksum_protocol.2.1 ⟨3, 7, []⟩ 0x11 (by decide) (by decide),
   c7_pc_write_checksum_protocol.2.2.1 ⟨3, 79, []⟩ 0x11 (by decide),
   c7_pc_write_checksum_protocol.2.2.2 ⟨5, 0, []⟩ 1 2 3 4 5 6 7 8 (by decide)⟩


/-! ### Text utilities shared by the codecs

`str.upper()` is modelled by `Char.toUpper` per character (the ASCII
case mapping, which covers every character appearing in the token tables),
`str.strip()` and `\s` by the ASCII whitespace set. -/

/-- Python `\s` / `str.strip()` whitespace (ASCII part). -/
def isWS (c : Char) : Bool :=
  c = ' ' ∨ c = '\t' ∨ c = '\n' ∨ c = '\r' ∨ c = '\x0b' ∨ c = '\x0c'

/-- `str.strip()`: drop whitespace from both ends. -/
def stripChars (s : List Char) : List Char :=
  ((s.dropWhile isWS).reverse.dropWhile isWS).reverse

/-- `str.split('\n')`. -/
def splitNL : List Char → List (List Char)
  | [] => [[]]
  | c :: rest =>
    if c = '\n' then [] :: splitNL rest
    else
      match splitNL rest with
      | g :: gs => (c :: g) :: gs
      | [] => [[c]]

/-- ASCII decimal digit. -/
def isDigitCh (c : Char) : Bool := decide ('0' ≤ c) && decide (c ≤ '9')

/-- ASCII uppercase letter (the regex class `[A-Z]`). -/
def isUpperAZ (c : Char) : Bool := decide ('A' ≤ c) && decide (c ≤ 'Z')

/-- `Char.toUpper` maps into the non-lowercase range, so it is idempotent. -/
theorem toUpper_idem (c : Char) : c.toUpper.toUpper = c.toUpper := by
  unfold Char.toUpper
  by_cases h : c.toNat ≥ 97 ∧ c.toNat ≤ 122
  · rw [if_pos h]
    obtain ⟨h1, h2⟩ := h
    generalize c.toNat = n at h1 h2
    interval_cases n <;> decide
  · rw [if_neg h, if_neg h]


/-! ### PC-1211 text to bytes (`CStoreSharpPC1211.text2bytes`) -/

/-- `CStoreSharpPC1211.TOKENS_B2T`: byte value to mnemonic text (keyword
tokens carry their trailing space as part of the key). -/
def pcTokensB2T : List (Nat × String) := [
  (0x11, " "),
  (0x12, "\""),
  (0x13, "?"),
  (0x14, "!"),
  (0x15, "#"),
  (0x16, "%"),
  (0x17, "¥"),
  (0x18, "$"),
  (0x19, "π"),
  (0x1a, "√"),
  (0x1b, ","),
  (0x1c, ";"),
  (0x1d, ":"),
  (0x30, "("),
  (0x31, ")"),
  (0x32, ">"),
  (0x33, "<"),
  (0x34, "="),
  (0x35, "+"),
  (0x36, "-"),
  (0x37, "*"),
  (0x38, "/"),
  (0x39, "^"),
  (0x40, "0"),
  (0x41, "1"),
  (0x42, "2"),
  (0x43, "3"),
  (0x44, "4"),
  (0x45, "5"),
  (0x46, "6"),
  (0x47, "7"),
  (0x48, "8"),
  (0x49, "9"),
  (0x4b, "|E"),
  (0x51, "A"),
  (0x52, "B"),
  (0x53, "C"),
  (0x54, "D"),
  (0x55, "E"),
  (0x56, "F"),
  (0x57, "G"),
  (0x58, "H"),
  (0x59, "I"),
  (0x5a, "J"),
  (0x5b, "K"),
  (0x5c, "L"),
  (0x5d, "M"),
  (0x5e, "N"),
  (0x5f, "O"),
  (0x60, "P"),
  (0x61, "Q"),
  (0x62, "R"),
  (0x63, "S"),
  (0x64, "T"),
  (0x65, "U"),
  (0x66, "V"),
  (0x67, "W"),
  (0x68, "X"),
  (0x69, "Y"),
  (0x6a, "Z"),
  (0x91, "STEP "),
  (0x92, "THEN "),
  (0xa0, "SIN "),
  (0xa1, "COS "),
  (0xa2, "TAN "),
  (0xa3, "ASN "),
  (0xa4, "ACS "),
  (0xa5, "ATN "),
  (0xa6, "EXP "),
  (0xa7, "LN "),
  (0xa8, "LOG "),
  (0xa9, "INT "),
  (0xaa, "ABS "),
  (0xab, "SGN "),
  (0xac, "DEG "),
  (0xad, "DMS "),
  (0xb0, "RUN "),
  (0xb1, "NEW "),
  (0xb2, "MEM "),
  (0xb3, "LIST "),
  (0xb4, "CONT "),
  (0xb5, "DEBUG "),
  (0xb6, "CSAVE "),
  (0xb7, "CLOAD "),
  (0xc0, "GRAD "),
  (0xc1, "PRINT "),
  (0xc2, "INPUT "),
  (0xc3, "RADIAN "),
  (0xc4, "DEGREE "),
  (0xc5, "CLEAR "),
  (0xd0, "IF "),
  (0xd1, "FOR "),
  (0xd2, "LET "),
  (0xd3, "REM "),
  (0xd4, "END "),
  (0xd5, "NEXT "),
  (0xd6, "STOP "),
  (0xd7, "GOTO "),
  (0xd8, "GOSUB "),
  (0xd9, "CHAIN "),
  (0xda, "PAUSE "),
  (0xdb, "BEEP "),
  (0xdc, "AREAD "),
  (0xde, "RETURN "),
  (0xdd, "USING ")]

/-- `TOKENS_T2B`: the reverse table, keys upper-cased, plus the convenience
alias `'SQRT '` for `0x1a`. -/
def pcTokensT2B : List (List Char × Nat) :=
  pcTokensB2T.map (fun p => (p.2.data.map Char.toUpper, p.1)) ++ [("SQRT ".data, 0x1a)]

/-- Dictionary lookup in `TOKENS_T2B` (all keys are distinct, so the first
match is the dictionary entry). -/
def lookupTok (key : List Char) : Option Nat :=
  (pcTokensT2B.find? (fun p => p.1 = key)).map (fun p => p.2)

/-- Python exceptions escaping from the codecs. -/
inductive PyErr where
  | typeError
  | cstoreError
deriving DecidableEq, Repr

/-- Filename characters to token bytes, in reverse order
(`fdata.insert(0, ...)` per character). -/
def encFilenameAux : List Char → List Nat → Except PyErr (List Nat)
  | [], fdata => .ok fdata
  | c :: rest, fdata =>
    match lookupTok [c] with
    | none => .error .cstoreError
    | some t => encFilenameAux rest (t :: fdata)

/-- Swap the nibbles of a byte. -/
def nibbleSwap (b : Nat) : Nat := ((b &&& 0xf0) >>> 4) ||| ((b &&& 0x0f) <<< 4)

/-- The 8-byte filename record: at most 7 characters, reversed, left-padded
with `0x00`, nibble-swapped, terminated by `0x5f`. -/
def encFilename (fname : List Char) : Except PyErr (List Nat) :=
  match encFilenameAux (fname.take 7) [] with
  | .error e => .error e
  | .ok fdata =>
    .ok (((List.replicate (7 - fdata.length) 0 ++ fdata).map nibbleSwap) ++ [0x5f])

/-- `int()` of a decimal digit string. -/
def natOfDigits (ds : List Char) : Nat :=
  ds.foldl (fun n c => n * 10 + (c.toNat - 48)) 0

/-- `'{0:03d}'.format(n)`: three digits zero-padded (or the full decimal
representation when `n ≥ 1000`). -/
def fmt3 (n : Nat) : List Char :=
  if n < 1000 then
    [Char.ofNat (48 + n / 100), Char.ofNat (48 + n / 10 % 10), Char.ofNat (48 + n % 10)]
  else
    Nat.toDigits 10 n

/-- Value of one hexadecimal digit (`int(..., 16)` on the characters the
line-number path produces). -/
def hexVal (c : Char) : Nat :=
  if isDigitCh c then c.toNat - 48
  else if decide ('a' ≤ c) && decide (c ≤ 'f') then c.toNat - 87
  else if decide ('A' ≤ c) && decide (c ≤ 'F') then c.toNat - 55
  else 0

/-- Encode the characters inside a matched double-quoted string (including
both quotes) one by one via the token table (`re_string_c`). -/
def encStringChars : List Char → Except PyErr (List Nat)
  | [] => .ok []
  | c :: rest =>
    match lookupTok [c] with
    | none => .error .cstoreError
    | some t =>
      match encStringChars rest with
      | .error e => .error e
      | .ok ts => .ok (t :: ts)

/-- One tokenizer step on a non-empty line body, in the priority order of
the source: keyword (`([A-Z][A-Z]+)\s*(.*)` with the maximal letter run and
its trailing space looked up), double-quoted string (`("[^"]*")\s*(.*)`),
special `(\|E)(.*)` (no whitespace skip), single non-space character
(`([^\s])\s*(.*)`); anything else raises `CStoreException`.  Returns the
emitted bytes and the remaining line. -/
def lineStep (c0 : Char) (rest0 : List Char) : Except PyErr (List Nat × List Char) :=
  let line := c0 :: rest0
  let run := line.takeWhile isUpperAZ
  match (if 2 ≤ run.length then lookupTok (run ++ [' ']) else none) with
  | some t => .ok ([t], (line.drop run.length).dropWhile isWS)
  | none =>
    let content := rest0.takeWhile (fun c => ¬ (c = '"'))
    if c0 = '"' ∧ content.length < rest0.length then
      match encStringChars ('"' :: (content ++ ['"'])) with
      | .error e => .error e
      | .ok ts => .ok (ts, (rest0.drop (content.length + 1)).dropWhile isWS)
    else if c0 = '|' ∧ rest0.headD ' ' = 'E' then
      match lookupTok ['|', 'E'] with
      | none => .error .cstoreError
      | some t => .ok ([t], rest0.tail)
    else if isWS c0 = false then
      match lookupTok [c0] with
      | none => .error .cstoreError
      | some t => .ok ([t], rest0.dropWhile isWS)
    else
      .error .cstoreError

/-- The tokenizer loop (`while len(line) > 0`); every step consumes at least
one character, so the initial line length is sufficient fuel. -/
def lineToksAux : Nat → List Char → List Nat → Except PyErr (List Nat)
  | _, [], acc => .ok acc
  | 0, _ :: _, _ => .error .cstoreError
  | fuel + 1, c0 :: rest0, acc =>
    match lineStep c0 rest0 with
    | .error e => .error e
    | .ok (ts, line2) => lineToksAux fuel line2 (acc ++ ts)

/-- Encode one program line: `(\d+):(.*)` gives the line number, written as
the two bytes of `'e' + '{0:03d}'` read as hex pairs, then the tokenized
body, then the terminator `0x00`. -/
def encLine (line : List Char) : Except PyErr (List Nat) :=
  let ds := line.takeWhile isDigitCh
  if ds.length = 0 then .error .cstoreError
  else
    match line.drop ds.length with
    | ':' :: body =>
      let lno := 'e' :: fmt3 (natOfDigits ds)
      let b1 := hexVal (lno.getD 0 '0') * 16 + hexVal (lno.getD 1 '0')
      let b2 := hexVal (lno.getD 2 '0') * 16 + hexVal (lno.getD 3 '0')
      match lineToksAux body.length body [] with
      | .error e => .error e
      | .ok ts => .ok ([b1, b2] ++ ts ++ [0x00])
    | _ => .error .cstoreError

/-- Encode all program lines in order. -/
def encAllLines : List (List Char) → Except PyErr (List Nat)
  | [] => .ok []
  | l :: rest =>
    match encLine l with
    | .error e => .error e
    | .ok bs =>
      match encAllLines rest with
      | .error e => .error e
      | .ok bs2 => .ok (bs ++ bs2)

/-- `_progtext2bytes`: ident `0x80`, filename record, program lines,
end-of-program marker `0xf0`. -/
def progText2bytes (fname : List Char) (lines : List (List Char)) :
    Except PyErr (List Nat) :=
  match encFilename fname with
  | .error e => .error e
  | .ok fb =>
    match encAllLines lines with
    | .error e => .error e
    | .ok lb => .ok (0x80 :: (fb ++ lb ++ [0xf0]))

/-- The header regex `^PROGRAM\s*"([^"]+)"$` on the stripped first line. -/
def parseProgHeader (l : List Char) : Option (List Char) :=
  if l.take 7 = "PROGRAM".data then
    match (l.drop 7).dropWhile isWS with
    | '"' :: r =>
      let content := r.takeWhile (fun c => ¬ (c = '"'))
      match r.drop content.length with
      | '"' :: tail => if content.length ≠ 0 ∧ tail = [] then some content else none
      | _ => none
    | _ => none
  else none

/-- `CStoreSharpPC1211.text2bytes`: upper-case the whole text, strip it,
split into lines, parse the `PROGRAM "NAME"` header, then encode. -/
def pcText2bytes (txt : List Char) : Except PyErr (List Nat) :=
  match splitNL (stripChars (txt.map Char.toUpper)) with
  | [] => .error .cstoreError
  | l0 :: rest =>
    match parseProgHeader (stripChars l0) with
    | none => .error .cstoreError
    | some fname => progText2bytes fname rest


/-- C8: `text2bytes` on a program whose body line is `10:PRINT "HI"` encodes
that line as exactly `0xE0 0x10 0xC1 0x12 0x58 0x59 0x12 0x00` (BCD line
number `0xE000 + digits`, the `PRINT ` keyword token, the quoted string
encoded character by character including both quotes, and the NUL
terminator), between the filename record and the EOF marker. -/
theorem c8_print_hi_line_bytes :
    pcText2bytes ("PROGRAM \"A\"\n10:PRINT \"HI\"").data
      = .ok ([0x80, 0x00, 0x00, 0x00, 0x00, 0x00, 0x00, 0x15, 0x5f]
          ++ [0xe0, 0x10, 0xc1, 0x12, 0x58, 0x59, 0x12, 0x00] ++ [0xf0]) := by
  rfl

/-- C10: PC-1211 `text2bytes` upper-cases the whole input before any
tokenization, so it is case-insensitive over its entire input; in
particular lowercase characters inside double-quoted string literals are
encoded as their uppercase letter tokens (`"hi"` becomes the tokens of
`H`, `I`), so lowercase string content is not preserved through a load. -/
theorem c10_text2bytes_case_insensitive :
    (∀ txt : List Char, pcText2bytes txt = pcText2bytes (txt.map Char.toUpper))
    ∧ pcText2bytes ("program \"a\"\n10:print \"hi\"").data
        = pcText2bytes ("PROGRAM \"A\"\n10:PRINT \"HI\"").data
    ∧ pcText2bytes ("program \"a\"\n10:print \"hi\"").data
        = .ok ([0x80, 0x00, 0x00, 0x00, 0x00, 0x00, 0x00, 0x15, 0x5f]
            ++ [0xe0, 0x10, 0xc1, 0x12, 0x58, 0x59, 0x12, 0x00] ++ [0xf0]) := by
  refine ⟨?_, by rfl, by rfl⟩
  intro txt
  have h : (txt.map Char.toUpper).map Char.toUpper = txt.map Char.toUpper := by
    rw [List.map_map]
    apply List.map_congr_left
    intro a _
    exact toUpper_idem a
  rw [pcText2bytes, pcText2bytes, h]


/-! ### C6: FX-502P memory-register text parsing (`text2bytes`, `F ` branch) -/

/-- The order in which FX-502P memories are saved (`MEMORY_SEQ`). -/
def fxMemorySeq : List String :=
  ["MF", "M9", "M8", "M7", "M6", "M5", "M4", "M3", "M2", "M1", "M0",
   "M1F", "M19", "M18", "M17", "M16", "M15", "M14", "M13", "M12", "M11", "M10"]

/-- Does a string parse as a Python `float(...)`?  Models CPython on
ordinary numeric literals: surrounding whitespace, an optional sign, digits
with an optional decimal point (at least one digit), and an optional
exponent with at least one digit.  (`inf`/`nan` and digit underscores are
not modelled; no input used here needs them.) -/
def pyFloatOk (s : List Char) : Bool :=
  let t := stripChars s
  let t1 := match t with
    | c :: r => if c = '+' ∨ c = '-' then r else t
    | [] => t
  let intPart := t1.takeWhile isDigitCh
  let s1 := t1.drop intPart.length
  let (fracLen, s2) :=
    match s1 with
    | '.' :: r => ((r.takeWhile isDigitCh).length, r.drop (r.takeWhile isDigitCh).length)
    | _ => (0, s1)
  if intPart.length + fracLen = 0 then false
  else
    match s2 with
    | [] => true
    | e :: r =>
      if e = 'e' ∨ e = 'E' then
        let r1 := match r with
          | c :: rr => if c = '+' ∨ c = '-' then rr else c :: rr
          | [] => []
        let ds := r1.takeWhile isDigitCh
        decide (ds.length ≠ 0) && decide (r1.drop ds.length = [])
      else false

/-- State of the memory-register line loop: the register map and the
offending lines collected so far (the source formats each into a message
appended to `es` and counts it in `e`). -/
structure MemParseState where
  regs : List (String × List Char)
  errLines : List (List Char)
deriving DecidableEq, Repr

/-- The initial register map: every register of `MEMORY_SEQ` set to 0.0. -/
def initRegs : List (String × List Char) :=
  fxMemorySeq.map (fun m => (m, "0.0".data))

/-- One iteration of the register-line loop of `text2bytes`:
`^([^:]*):\s*(.*)` splits at the first colon (no colon: the line is
collected as an invalid-format error and processing continues); a value
that fails to parse as a float enters the handler
`except Exception as ex: ex += "line {0}:" + str(ex) + '\n'`, where adding
a string to the exception object itself raises an uncaught `TypeError`; an
unknown register name is collected and processing continues; otherwise the
register is updated. -/
def fxMemLineStep (st : MemParseState) (line : List Char) :
    Except PyErr MemParseState :=
  let before := line.takeWhile (fun c => ¬ (c = ':'))
  if before.length = line.length then
    .ok ⟨st.regs, st.errLines ++ [line]⟩
  else
    let reg := String.mk before
    let value := (line.drop (before.length + 1)).dropWhile isWS
    if pyFloatOk value = false then
      .error .typeError
    else if (st.regs.find? (fun p => p.1 = reg)).isNone then
      .ok ⟨st.regs, st.errLines ++ [line]⟩
    else
      .ok ⟨st.regs.map (fun p => if p.1 = reg then (p.1, value) else p), st.errLines⟩

/-- The register-line loop over all input lines. -/
def fxMemLinesRun : List (List Char) → MemParseState → Except PyErr MemParseState
  | [], st => .ok st
  | l :: rest, st =>
    match fxMemLineStep st l with
    | .error e => .error e
    | .ok st2 => fxMemLinesRun rest st2

/-- The loop followed by the aggregation step of `text2bytes`: when any
errors were collected, one single `CStoreException` carrying all of them is
raised after the whole input was processed. -/
def fxMemLinesOutcome (lines : List (List Char)) : Except PyErr MemParseState :=
  match fxMemLinesRun lines ⟨initRegs, []⟩ with
  | .error e => .error e
  | .ok st => if st.errLines ≠ [] then .error .cstoreError else .ok st

/-- C6: a memory-register value that fails to parse as a float is *not*
collected - the `except` handler itself raises an uncaught `TypeError`
(`ex += ...` adds a string to the exception object), aborting the loop -
while invalid-format and unknown-register lines are collected and reported
together as the single aggregated exception after the whole input. -/
theorem c6_float_error_escapes :
    fxMemLinesOutcome [("M0: ABC").data] = .error .typeError
    ∧ fxMemLinesRun [("MX: 1.5").data, ("NOCOLON").data] ⟨initRegs, []⟩
        = .ok ⟨initRegs, [("MX: 1.5").data, ("NOCOLON").data]⟩
    ∧ fxMemLinesOutcome [("MX: 1.5").data, ("NOCOLON").data] = .error .cstoreError := by
  refine ⟨by rfl, by rfl, by rfl⟩


/-- How an iteration over the decoded-byte generator ends: `clean` models
the `except StopIteration: pass` path of `_read_byte_generator` (normal
iterator exhaustion), `errored` any other escaping exception or a loop that
stops making progress. -/
inductive DecodeEnd where
  | clean
  | errored (e : DErr)
deriving DecidableEq, Repr

/-- Iterating the byte generator: decode byte frames until an exception;
`StopIteration` is caught (`except StopIteration: pass`) and ends the
stream cleanly, anything else escapes. -/
def decodeBytesLoop (cfg : MCfg) (pat : List Char) :
    Nat → HWView → List Nat → List Nat × DecodeEnd
  | 0, _, acc => (acc, .errored .hang)
  | fuel + 1, v, acc =>
    match readByteHW cfg pat v with
    | .ok (b, v2) => decodeBytesLoop cfg pat fuel v2 (acc ++ [b])
    | .error .stopIteration => (acc, .clean)
    | .error e => (acc, .errored e)

/-- Decode a whole half-wave stream (with the initial buffer pre-fill). -/
def decodeStream (cfg : MCfg) (pat : List Char) (hws : List Bool) (fuel : Nat) :
    List Nat × DecodeEnd :=
  decodeBytesLoop cfg pat fuel (extendK cfg.hwlen1 ⟨[], hws⟩ cfg.hwlen1) []

/-- An FX-502P stream truncated in the middle of a byte frame: two lead-in
ONE bits, then only 640 of the 1920 PCM samples of the frame of `0xA5`
(the cut falls inside the fourth data bit). -/
def fxTruncatedSamples : List Nat :=
  repBlock fxCfg.frames1 2 ++ (writeByteFrames fxCfg fxPatternChars 0xA5).take 640

/-- The half-wave stream of the truncated input. -/
def fxTruncHW : List Bool := hwOf fxCfg.hwmid fxTruncatedSamples

/-- The decoder view after the pre-fill. -/
def fxTruncV0 : HWView := extendK fxCfg.hwlen1 ⟨[], fxTruncHW⟩ fxCfg.hwlen1

/-- The decoder view after the first decoded byte of the truncated
stream. -/
def fxTruncV1 : HWView :=
  match readByteHW fxCfg fxPatternChars fxTruncV0 with
  | .ok (_, v) => v
  | .error _ => ⟨[], []⟩

/-- C9: on the stream truncated mid-byte the byte iterator does not end
cleanly: the exhausted half-wave stream leaves the buffer stale, the first
byte frame decodes to the garbage value `0xFD` (not `0xA5`), and the next
frame's start-bit search raises `StopIteration` inside the generator body,
which escapes as a `RuntimeError` (PEP 479) instead of the caught
`StopIteration`; no fuel makes the iteration end cleanly. -/
theorem c9_truncated_stream_not_clean :
    decodeStream fxCfg fxPatternChars fxTruncHW 8 = ([0xfd], .errored .runtimeError)
    ∧ ∀ fuel, (decodeStream fxCfg fxPatternChars fxTruncHW fuel).2 ≠ DecodeEnd.clean := by
  have h1 : readByteHW fxCfg fxPatternChars fxTruncV0 = .ok (0xfd, fxTruncV1) := by rfl
  have h2 : readByteHW fxCfg fxPatternChars fxTruncV1 = .error .runtimeError := by rfl
  refine ⟨by rfl, ?_⟩
  intro fuel
  match fuel with
  | 0 =>
    show (decodeBytesLoop fxCfg fxPatternChars 0 fxTruncV0 []).2 ≠ DecodeEnd.clean
    simp [decodeBytesLoop]
  | 1 =>
    show (decodeBytesLoop fxCfg fxPatternChars 1 fxTruncV0 []).2 ≠ DecodeEnd.clean
    simp [decodeBytesLoop, h1]
  | n + 2 =>
    show (decodeBytesLoop fxCfg fxPatternChars (n + 2) fxTruncV0 []).2 ≠ DecodeEnd.clean
    simp [decodeBytesLoop, h1, h2]


end CassetteStore
